import Mathlib

/-!
Shallow embedding of `flask_rest_jsonapi/decorators.py`: the header guard
(`check_headers`), the method-precondition guard (`check_method_requirements`)
and the exception-to-response translator (`jsonapi_exception_formatter`),
together with the data they manipulate.

Python exceptions are modelled with `Except`; a Python `dict` of error fields
becomes the `ErrorObject` structure; a Flask response built by `make_response`
becomes the `Response` structure.  `JsonApiException` and `jsonapi_errors`
live in repository modules that are not part of the embedded source tree and
are modelled from the specification (see their doc comments).
-/

set_option autoImplicit false

deriving instance DecidableEq for Except

namespace FlaskRestJsonApi

/-- A single structured error, the dict literal passed to `jsonapi_errors`
in `decorators.py` and the dict produced by `JsonApiException.to_dict`.
Absent keys are `none`. Field order: source, detail, title, status, code,
id, links, meta. -/
structure ErrorObject where
  source : Option String
  detail : Option String
  title : Option String
  status : Option String
  code : Option String
  id : Option String
  links : Option String
  meta : Option String
deriving DecidableEq, Repr

/-- The top-level error response body: an ordered sequence of ErrorObject. -/
structure ErrorEnvelope where
  errors : List ErrorObject
deriving DecidableEq, Repr

/-- Modelled from the spec: `jsonapi_errors` (module `flask_rest_jsonapi.errors`)
is not under the embedded source tree; only its call sites in `decorators.py`
are.  Section 6 of the spec gives the outbound body on any rejection or
translated error as the JSON object with key "errors" holding the list of
error objects, so `jsonapi_errors` wraps the given list into an
`ErrorEnvelope` unchanged. -/
def jsonapi_errors (errors : List ErrorObject) : ErrorEnvelope :=
  ⟨errors⟩

/-- Modelled from the spec: `JsonApiException`
(module `flask_rest_jsonapi.exceptions`) is not under the embedded source
tree.  Spec section 3: "a domain-level failure value carrying the same fields
as ErrorObject plus a default status (400) when unset"; the `status` stored
here is already defaulted (see `JsonApiException.make`). -/
structure JsonApiException where
  source : String
  detail : String
  title : Option String
  status : String
  code : Option String
  id : Option String
  links : Option String
  meta : Option String
deriving DecidableEq, Repr

/-- Modelled from the spec: the `JsonApiException` constructor, with the
argument order of the call site in `decorators.py`
(`detail`, `source`, `title`, `status`, `code`, `id_`, `links`, `meta`);
an unset status defaults to "400" (spec sections 3 and 8). -/
def JsonApiException.make (detail : String) (source : String)
    (title : Option String) (status : Option String) (code : Option String)
    (id : Option String) (links : Option String) (meta : Option String) :
    JsonApiException :=
  ⟨source, detail, title, status.getD "400", code, id, links, meta⟩

/-- Modelled from the spec: `JsonApiException.to_dict` converts the exception
to an ErrorObject carrying the same fields (spec section 3: "converted to an
ErrorObject"). -/
def JsonApiException.to_dict (e : JsonApiException) : ErrorObject :=
  ⟨some e.source, some e.detail, e.title, some e.status, e.code, e.id,
    e.links, e.meta⟩

/-- An arbitrary (non-`JsonApiException`) Python exception object as the
translator probes it: `str` is `str(e)` and the remaining fields model
`getattr(e, name, default)` — `none` when the attribute is absent.  A plain
`Exception(msg)` (a `KeyError` included) carries only its message. -/
structure PyExc where
  str : String
  detail : Option String
  source : Option String
  title : Option String
  status : Option String
  code : Option String
  id : Option String
  links : Option String
  meta : Option String
deriving DecidableEq, Repr

/-- A plain Python exception with message `s` and no extra attributes. -/
def PyExc.plain (s : String) : PyExc :=
  ⟨s, none, none, none, none, none, none, none, none⟩

/-- A raised Python exception, split by the `except` clauses of
`jsonapi_exception_formatter`: an instance of `JsonApiException`, or any
other `Exception` instance. -/
inductive Exc where
  | jsonApi (e : JsonApiException)
  | py (e : PyExc)
deriving DecidableEq, Repr

/-- A response status as passed to `make_response`: `check_headers` passes
the int literals 415 and 406, the translator passes the exception's status
string. -/
inductive Status where
  | int (n : Nat)
  | str (s : String)
deriving DecidableEq, Repr

/-- A response built by `make_response(body, status, headers)` on an error
path: all such call sites pass a single-key header dict
`Content-Type: application/vnd.api+json`, kept here as the
`contentTypeHeader` field. -/
structure Response where
  body : ErrorEnvelope
  status : Status
  contentTypeHeader : String
deriving DecidableEq, Repr

/-- The value of one request header as werkzeug hands it to the code:
normally a string; `_is_list_like` in `decorators.py` also provides for a
list-like sequence of strings. -/
inductive HeaderVal where
  | str (s : String)
  | list (l : List String)
deriving DecidableEq, Repr

/-- `_is_list_like(iterable)`: a Sequence that is not a str. -/
def _is_list_like : HeaderVal → Bool
  | .str _ => false
  | .list _ => true

/-- `set(v)` for a list-like header value, `set([v])` for a string one:
the two branches of lines 33-36 of `decorators.py` collapsed into one total
function (each branch is only reached at the matching constructor). -/
def headerElems : HeaderVal → List String
  | .str s => [s]
  | .list l => l

/-- The inbound request as the guards inspect it: the HTTP method and the
optional `Content-Type` and `Accept` headers.  An absent header is `none`;
indexing an absent header on werkzeug's header mapping raises `KeyError`. -/
structure Request where
  method : String
  contentType : Option HeaderVal
  accept : Option String
deriving DecidableEq, Repr

/-- `ALLOWED_HEADERS` from `decorators.py` (a set; only membership and
intersection are used, so a list suffices). -/
def ALLOWED_HEADERS : List String :=
  ["application/vnd.api+json", "application/json"]

/-- Python `s.split(',')` over the character list: split on every comma,
keeping empty pieces (so the empty string yields one empty piece). -/
def splitCommaAux : List Char → List Char → List (List Char)
  | [], acc => [acc.reverse]
  | c :: cs, acc =>
    if c = ',' then acc.reverse :: splitCommaAux cs []
    else splitCommaAux cs (c :: acc)

/-- Python `s.split(',')`. -/
def pySplitComma (s : String) : List String :=
  (splitCommaAux s.data []).map List.asString

/-- Python `s.strip()`: drop leading and trailing whitespace. -/
def pyStrip (s : String) : String :=
  (((s.data.dropWhile Char.isWhitespace).reverse.dropWhile
    Char.isWhitespace).reverse).asString

/-- Python `s.lower()` (the methods involved are ASCII). -/
def pyLower (s : String) : String :=
  (s.data.map Char.toLower).asString

/-- Whether `sub` occurs as a contiguous sublist of the second argument. -/
def containsSub (sub : List Char) : List Char → Bool
  | [] => sub.isEmpty
  | c :: cs => sub.isPrefixOf (c :: cs) || containsSub sub cs

/-- Python `sub in s` substring containment for strings. -/
def strContains (s sub : String) : Bool :=
  containsSub sub.data s.data

/-- `str(KeyError('Content-Type'))`, the exception raised by
`request.headers['Content-Type']` when the header is absent. -/
def keyErrorContentType : PyExc :=
  PyExc.plain "'Content-Type'"

/-- The 415 error dict literal of `check_headers` (lines 39-42). -/
def contentTypeErrorObject : ErrorObject :=
  ⟨some "", some "Content-Type header must be application/vnd.api+json",
    some "Invalid request header", some "415", none, none, none, none⟩

/-- The 415 response of `check_headers` (line 43). -/
def resp415 : Response :=
  ⟨jsonapi_errors [contentTypeErrorObject], Status.int 415,
    "application/vnd.api+json"⟩

/-- The 406 error dict literal of `check_headers` (lines 53-57).  The detail
is two adjacent Python string literals, concatenated with no separator, which
is kept verbatim (note the missing space between "without" and "media"). -/
def acceptErrorObject : ErrorObject :=
  ⟨some "",
    some ("Accept header must be application/vnd.api+json without" ++
      "media type parameters"),
    some "Invalid request header", some "406", none, none, none, none⟩

/-- The 406 response of `check_headers` (line 58). -/
def resp406 : Response :=
  ⟨jsonapi_errors [acceptErrorObject], Status.int 406,
    "application/vnd.api+json"⟩

/-- Outcome of `check_headers` when it does not raise: an early error
response, or the call is passed through to the wrapped function. -/
inductive CheckOutcome where
  | response (r : Response)
  | passThrough
deriving DecidableEq, Repr

/-- The Content-Type stage of `check_headers` (lines 31-43).  Returns
`some resp` when the stage returns an early response, `none` when control
falls through to the Accept stage; raises `KeyError` when a POST/PATCH
request has no Content-Type header (line 33 indexes the header mapping
unconditionally).  Note line 32 binds `has_content_type_header` to
`'Content-Type' NOT in request.headers`, so the flag is true exactly when
the header is absent. -/
def contentTypeStage (req : Request) : Except Exc (Option Response) :=
  if req.method = "POST" ∨ req.method = "PATCH" then
    let has_content_type_header : Bool := req.contentType.isNone
    match req.contentType with
    | none => Except.error (Exc.py keyErrorContentType)
    | some v =>
      let header_set : List String := headerElems v
      let header_is_allowed : List String :=
        ALLOWED_HEADERS.filter (fun h => header_set.contains h)
      -- `not (has_content_type_header and header_is_allowed)` with Python
      -- truthiness: a set is truthy iff non-empty.
      if !(has_content_type_header && !header_is_allowed.isEmpty) then
        Except.ok (some resp415)
      else
        Except.ok none
  else
    Except.ok none

/-- The for-loop of the Accept stage (lines 46-51): fold over the comma-split
candidates carrying the `flag` variable; an exact match with an allowed
header sets the flag to False and breaks out of the loop. -/
def acceptLoop : List String → Bool → Bool
  | [], flag => flag
  | accept :: rest, flag =>
    if ALLOWED_HEADERS.contains (pyStrip accept) then
      false
    else
      acceptLoop rest
        (if strContains accept "application/vnd.api+json" &&
            pyStrip accept != "application/vnd.api+json" then
          true
        else
          flag)

/-- The Accept stage of `check_headers` (lines 44-58): when an Accept header
is present and the loop leaves the flag set, return the 406 response,
otherwise pass through to the wrapped function. -/
def acceptStage (req : Request) : CheckOutcome :=
  match req.accept with
  | none => CheckOutcome.passThrough
  | some a =>
    let flag := acceptLoop (pySplitComma a) false
    if flag then CheckOutcome.response resp406 else CheckOutcome.passThrough

/-- `check_headers.wrapper` (lines 30-59): the Content-Type stage, then —
when it neither raised nor returned — the Accept stage. -/
def check_headers (req : Request) : Except Exc CheckOutcome :=
  match contentTypeStage req with
  | Except.error e => Except.error e
  | Except.ok (some r) => Except.ok (CheckOutcome.response r)
  | Except.ok none => Except.ok (acceptStage req)

/-- The handler instance (`args[0]`) as `check_method_requirements` probes
it: its class name and whether `hasattr(args[0], 'schema')`. -/
structure Handler where
  className : String
  hasSchema : Bool
deriving DecidableEq, Repr

/-- The message `error_message.format(**error_data)` produces for the schema
check: `error_field` is "a schema class", `cls` the handler's class name and
`method` the lower-cased request method. -/
def schemaErrorMessage (h : Handler) (method : String) : String :=
  "You must provide a schema class in " ++ h.className ++
    " to get access to the default " ++ pyLower method ++ " method"

/-- `check_method_requirements.wrapper` (lines 70-81): for any method other
than DELETE, a handler without a `schema` attribute raises a plain
`Exception` with `schemaErrorMessage`; otherwise control passes to the
wrapped function. -/
def check_method_requirements (h : Handler) (method : String) :
    Except Exc Unit :=
  if method ≠ "DELETE" then
    if !h.hasSchema then
      Except.error (Exc.py (PyExc.plain (schemaErrorMessage h method)))
    else
      Except.ok ()
  else
    Except.ok ()

/-- The ambient Flask application state read by the translator:
`config['DEBUG'] is True`, `config.get('PROPAGATE_EXCEPTIONS')` (absent is
`none`), `config.get('GLOBAL_ERROR_MESSAGE')` (absent is `none`), and the
error-tracking integration: `none` when `'sentry'` is not in
`current_app.extensions`, `some capture` when it is, where `capture` is the
outcome of `captureException()` — `none` for a normal return, `some exc`
when the capture call itself raises `exc`. -/
structure AppConfig where
  debug : Bool
  propagate_exceptions : Option Bool
  global_error_message : Option String
  sentry : Option (Option Exc)
deriving DecidableEq, Repr

/-- Python `a or b` for an optional string `a` (an absent or empty string is
falsy). -/
def pyOrStr (a : Option String) (b : String) : String :=
  match a with
  | none => b
  | some s => if s.isEmpty then b else s

/-- The `JsonApiException` the translator constructs from an arbitrary
failure (lines 101-110): each argument is the corresponding
`getattr(e, name, default)`. -/
def translatedException (cfg : AppConfig) (e : PyExc) : JsonApiException :=
  JsonApiException.make
    (e.detail.getD (pyOrStr cfg.global_error_message e.str))
    (e.source.getD "")
    e.title e.status e.code e.id e.links e.meta

/-- The response headers dict of the translator, a single
`Content-Type: application/vnd.api+json` entry. -/
def jsonapiContentType : String :=
  "application/vnd.api+json"

/-- `jsonapi_exception_formatter.wrapper` (lines 85-113) applied to the
outcome of the downstream call: a normal value passes through unchanged
(`Sum.inl`); a `JsonApiException` becomes a single-error envelope response
with the exception's status; any other exception is re-raised in
debug/propagate mode, otherwise reported to sentry when configured (an
exception raised by the capture call itself propagates, as the call is not
guarded), then translated via `translatedException` into an envelope
response. -/
def jsonapi_exception_formatter {α : Type} (cfg : AppConfig)
    (downstream : Except Exc α) : Except Exc (α ⊕ Response) :=
  match downstream with
  | Except.ok a => Except.ok (Sum.inl a)
  | Except.error (Exc.jsonApi e) =>
    Except.ok (Sum.inr ⟨jsonapi_errors [e.to_dict], Status.str e.status,
      jsonapiContentType⟩)
  | Except.error (Exc.py e) =>
    if cfg.debug = true ∨ cfg.propagate_exceptions = some true then
      Except.error (Exc.py e)
    else
      match cfg.sentry with
      | some (some exc) => Except.error exc
      | _ =>
        let exc := translatedException cfg e
        Except.ok (Sum.inr ⟨jsonapi_errors [exc.to_dict],
          Status.str exc.status, jsonapiContentType⟩)

/-- The capability guard composed with a downstream handler body, as they
are stacked at dispatch: the guard's exception propagates into the
translator. -/
def guardedDispatch {α : Type} (h : Handler) (method : String)
    (body : Except Exc α) : Except Exc α :=
  match check_method_requirements h method with
  | Except.error e => Except.error e
  | Except.ok _ => body

/-- The full translator-wrapped dispatch: `jsonapi_exception_formatter`
around the capability guard and the handler body. -/
def dispatch {α : Type} (cfg : AppConfig) (h : Handler) (method : String)
    (body : Except Exc α) : Except Exc (α ⊕ Response) :=
  jsonapi_exception_formatter cfg (guardedDispatch h method body)

/-! Helper lemmas shared by the claim theorems. -/

/-- The Content-Type stage is skipped for methods other than POST/PATCH. -/
theorem contentTypeStage_skip (req : Request)
    (h : ¬(req.method = "POST" ∨ req.method = "PATCH")) :
    contentTypeStage req = Except.ok none := by
  unfold contentTypeStage
  rw [if_neg h]

/-- The only early response the Content-Type stage can produce is the 415
response. -/
theorem contentTypeStage_eq_some (req : Request) (r : Response)
    (h : contentTypeStage req = Except.ok (some r)) : r = resp415 := by
  unfold contentTypeStage at h
  split at h
  · cases hct : req.contentType with
    | none => rw [hct] at h; simp at h
    | some v =>
      rw [hct] at h
      simp only [] at h
      split at h
      · simp at h; exact h.symm
      · simp at h
  · simp at h

/-- If some comma-split candidate strips to an allowed header, the Accept
loop leaves the flag cleared, whatever flag value it starts from. -/
theorem acceptLoop_exact (l : List String) (flag : Bool)
    (h : l.any (fun c => ALLOWED_HEADERS.contains (pyStrip c)) = true) :
    acceptLoop l flag = false := by
  induction l generalizing flag with
  | nil => simp at h
  | cons a rest ih =>
    unfold acceptLoop
    by_cases hc : ALLOWED_HEADERS.contains (pyStrip a) = true
    · rw [if_pos hc]
    · rw [if_neg hc]
      simp only [List.any_cons, Bool.or_eq_true] at h
      rcases h with h | h
      · exact absurd h hc
      · exact ih _ h

/-- When an Accept header is present and one of its candidates strips to an
allowed header, the Accept stage passes the request through. -/
theorem acceptStage_exact (req : Request) (a : String) (ha : req.accept = some a)
    (hx : (pySplitComma a).any (fun c => ALLOWED_HEADERS.contains (pyStrip c)) = true) :
    acceptStage req = CheckOutcome.passThrough := by
  unfold acceptStage
  rw [ha]
  simp [acceptLoop_exact _ _ hx]

/-- Any early response of `check_headers` is the 415 response or the 406
response. -/
theorem check_headers_response_cases (req : Request) (r : Response)
    (h : check_headers req = Except.ok (CheckOutcome.response r)) :
    r = resp415 ∨ r = resp406 := by
  unfold check_headers at h
  cases hct : contentTypeStage req with
  | error e => rw [hct] at h; simp at h
  | ok o =>
    rw [hct] at h
    cases o with
    | some r' =>
      simp at h
      exact Or.inl (h ▸ contentTypeStage_eq_some req r' hct)
    | none =>
      simp at h
      unfold acceptStage at h
      cases ha : req.accept with
      | none => rw [ha] at h; simp at h
      | some a =>
        rw [ha] at h
        simp only [] at h
        split at h
        · simp at h; exact Or.inr h.symm
        · simp at h

/-- The non-JsonApiException branch of the translator, spelled out: re-raise
in debug/propagate mode; otherwise a raising sentry capture escapes, and any
other configuration yields the translated envelope response. -/
theorem formatter_py_cases {α : Type} (cfg : AppConfig) (p : PyExc) :
    jsonapi_exception_formatter (α := α) cfg (Except.error (Exc.py p)) =
      if cfg.debug = true ∨ cfg.propagate_exceptions = some true then
        Except.error (Exc.py p)
      else
        match cfg.sentry with
        | some (some exc) => Except.error exc
        | _ =>
          Except.ok (Sum.inr ⟨jsonapi_errors [(translatedException cfg p).to_dict],
            Status.str (translatedException cfg p).status, jsonapiContentType⟩) :=
  rfl

/-! Claim theorems. -/

/-- C1: the claim says a POST or PATCH request whose Content-Type header is
"application/vnd.api+json" or "application/json" passes `check_headers`.
The code instead returns the 415 response on both inputs: line 32 binds
`has_content_type_header` to the NEGATION of header presence, so the guard
condition `not (has_content_type_header and header_is_allowed)` is true for
every present header, allowed or not. -/
theorem C1_allowed_content_type_still_gets_415 :
    check_headers ⟨"POST", some (HeaderVal.str "application/vnd.api+json"), none⟩ =
      Except.ok (CheckOutcome.response resp415) ∧
    check_headers ⟨"PATCH", some (HeaderVal.str "application/json"), none⟩ =
      Except.ok (CheckOutcome.response resp415) ∧
    resp415.status = Status.int 415 := by
  decide

/-- C2: the claim says a POST or PATCH request with no Content-Type header
gets the 415 response and the handler is never invoked.  The code instead
raises: line 33 indexes `request.headers['Content-Type']` unconditionally,
and werkzeug's header mapping raises `KeyError` for an absent header, before
the 415 branch can run.  (The handler is indeed never invoked.) -/
theorem C2_missing_content_type_raises_key_error :
    check_headers ⟨"POST", none, none⟩ =
      Except.error (Exc.py keyErrorContentType) ∧
    check_headers ⟨"PATCH", none, none⟩ =
      Except.error (Exc.py keyErrorContentType) := by
  decide

/-- C4: the claim says the 406 rejection's single error object has detail
exactly "Accept header must be application/vnd.api+json without media type
parameters".  The code builds the detail from two adjacent string literals
with no separator, producing "...withoutmedia type parameters" (no space);
status 406 and title "Invalid request header" do hold, as evaluated here on
a parameterized Accept header with no exact match. -/
theorem C4_detail_lacks_space_between_without_and_media :
    check_headers ⟨"GET", none, some "application/vnd.api+json; charset=utf-8"⟩ =
      Except.ok (CheckOutcome.response resp406) ∧
    resp406.status = Status.int 406 ∧
    resp406.body.errors =
      [⟨some "",
        some "Accept header must be application/vnd.api+json withoutmedia type parameters",
        some "Invalid request header", some "406", none, none, none, none⟩] := by
  decide

/-- C6: a downstream `JsonApiException` is converted to a response whose
status is the exception's status, whose body is the envelope holding that
exception converted to a single error object, and whose Content-Type
response header is application/vnd.api+json — for every configuration. -/
theorem C6_jsonapi_exception_becomes_envelope_response {α : Type}
    (cfg : AppConfig) (e : JsonApiException) :
    jsonapi_exception_formatter (α := α) cfg (Except.error (Exc.jsonApi e)) =
      Except.ok (Sum.inr ⟨jsonapi_errors [e.to_dict], Status.str e.status,
        jsonapiContentType⟩) :=
  rfl

/-- C7: a request whose Accept header has some comma-split candidate that
strips to an accepted media type is never rejected with 406 — whatever the
other candidates are — and, for methods without the Content-Type stage, is
passed through to the wrapped handler. -/
theorem C7_exact_accept_match_never_406 (req : Request) (a : String)
    (ha : req.accept = some a)
    (hx : (pySplitComma a).any
      (fun c => ALLOWED_HEADERS.contains (pyStrip c)) = true) :
    (∀ r, check_headers req = Except.ok (CheckOutcome.response r) →
      r.status ≠ Status.int 406) ∧
    (¬(req.method = "POST" ∨ req.method = "PATCH") →
      check_headers req = Except.ok CheckOutcome.passThrough) := by
  have hstage := acceptStage_exact req a ha hx
  constructor
  · intro r hr
    unfold check_headers at hr
    cases hct : contentTypeStage req with
    | error e => rw [hct] at hr; simp at hr
    | ok o =>
      rw [hct] at hr
      cases o with
      | some r' =>
        simp at hr
        rw [← hr, contentTypeStage_eq_some req r' hct]
        decide
      | none =>
        simp at hr
        rw [hstage] at hr
        simp at hr
  · intro hm
    unfold check_headers
    rw [contentTypeStage_skip req hm, hstage]

/-- Witness for C7: a GET request whose Accept header lists a parameterized
candidate before and after an exact "application/vnd.api+json" candidate is
passed through. -/
theorem C7_witness :
    check_headers ⟨"GET", none,
      some "application/vnd.api+json; q=1, application/vnd.api+json, application/vnd.api+json; x"⟩ =
      Except.ok CheckOutcome.passThrough :=
  (C7_exact_accept_match_never_406
    ⟨"GET", none,
      some "application/vnd.api+json; q=1, application/vnd.api+json, application/vnd.api+json; x"⟩
    "application/vnd.api+json; q=1, application/vnd.api+json, application/vnd.api+json; x"
    rfl (by decide)).2 (by decide)

/-- C9: `jsonapi_exception_formatter` catches `JsonApiException` before
consulting the debug/propagate configuration: even when the debug flag or
the propagate-exceptions flag is set, a JsonApiException is converted to an
envelope response and never re-raised, while the re-raise path applies to
non-JsonApiException failures. -/
theorem C9_jsonapi_caught_before_debug_config {α : Type} (cfg : AppConfig)
    (e : JsonApiException) (p : PyExc)
    (hdbg : cfg.debug = true ∨ cfg.propagate_exceptions = some true) :
    jsonapi_exception_formatter (α := α) cfg (Except.error (Exc.jsonApi e)) =
      Except.ok (Sum.inr ⟨jsonapi_errors [e.to_dict], Status.str e.status,
        jsonapiContentType⟩) ∧
    jsonapi_exception_formatter (α := α) cfg (Except.error (Exc.py p)) =
      Except.error (Exc.py p) := by
  constructor
  · rfl
  · simp only [jsonapi_exception_formatter]
    rw [if_pos hdbg]

/-- Witness for C9: with the debug flag on, a concrete JsonApiException is
converted while a concrete plain exception is re-raised. -/
theorem C9_witness :
    jsonapi_exception_formatter (α := Unit) ⟨true, none, none, none⟩
      (Except.error (Exc.jsonApi
        (JsonApiException.make "Not found" "" none (some "404")
          none none none none))) =
      Except.ok (Sum.inr ⟨jsonapi_errors
        [(JsonApiException.make "Not found" "" none (some "404")
          none none none none).to_dict],
        Status.str (JsonApiException.make "Not found" "" none (some "404")
          none none none none).status, jsonapiContentType⟩) ∧
    jsonapi_exception_formatter (α := Unit) ⟨true, none, none, none⟩
      (Except.error (Exc.py (PyExc.plain "boom"))) =
      Except.error (Exc.py (PyExc.plain "boom")) :=
  C9_jsonapi_caught_before_debug_config (α := Unit) ⟨true, none, none, none⟩
    (JsonApiException.make "Not found" "" none (some "404") none none none none)
    (PyExc.plain "boom") (Or.inl rfl)

/-- C3 counterexample: the claim says an exception raised by
`check_method_requirements` always propagates and is never formatted into a
JSON error envelope, in any mode.  In production mode (debug off, propagate
unset, no sentry) the translator formats it into an envelope response
instead of propagating it, as evaluated here. -/
theorem C3_counterexample :
    dispatch (α := Unit) ⟨false, none, none, none⟩ ⟨"PersonList", false⟩ "GET"
      (Except.ok ()) =
      Except.ok (Sum.inr ⟨jsonapi_errors
        [⟨some "", some "You must provide a schema class in PersonList to get access to the default get method",
          none, some "400", none, none, none, none⟩],
        Status.str "400", jsonapiContentType⟩) := by
  decide

/-- C3 (amended): an exception raised by `check_method_requirements`
propagates through `jsonapi_exception_formatter` only when the debug flag or
the propagate-exceptions flag is set; otherwise (with a non-raising or
absent error-tracking integration) it is formatted into a JSON error
envelope like any other unexpected failure. -/
theorem C3_configuration_error_formatted_in_production {α : Type}
    (cfg : AppConfig) (h : Handler) (m : String) (body : Except Exc α)
    (hs : h.hasSchema = false) (hm : m ≠ "DELETE") :
    (cfg.debug = true ∨ cfg.propagate_exceptions = some true →
      dispatch cfg h m body =
        Except.error (Exc.py (PyExc.plain (schemaErrorMessage h m)))) ∧
    (cfg.debug = false → cfg.propagate_exceptions ≠ some true →
      (∀ x, cfg.sentry ≠ some (some x)) →
      dispatch cfg h m body =
        Except.ok (Sum.inr ⟨jsonapi_errors
          [⟨some "", some (pyOrStr cfg.global_error_message (schemaErrorMessage h m)),
            none, some "400", none, none, none, none⟩],
          Status.str "400", jsonapiContentType⟩)) := by
  have hguard : guardedDispatch h m body =
      Except.error (Exc.py (PyExc.plain (schemaErrorMessage h m))) := by
    unfold guardedDispatch check_method_requirements
    rw [if_pos hm, if_pos (by rw [hs]; rfl)]
  constructor
  · intro hdbg
    unfold dispatch
    rw [hguard, formatter_py_cases, if_pos hdbg]
  · intro h1 h2 h3
    unfold dispatch
    rw [hguard, formatter_py_cases, if_neg (by simp [h1, h2])]
    cases hsen : cfg.sentry with
    | none => rfl
    | some o =>
      cases o with
      | none => rfl
      | some x => exact absurd hsen (h3 x)

/-- Witness for C3 (amended): with the debug flag on, the configuration
error raised for a schema-less handler on GET propagates unmodified. -/
theorem C3_witness :
    dispatch (α := Unit) ⟨true, none, none, none⟩ ⟨"PersonList", false⟩ "GET"
      (Except.ok ()) =
      Except.error (Exc.py (PyExc.plain
        (schemaErrorMessage ⟨"PersonList", false⟩ "GET"))) :=
  (C3_configuration_error_formatted_in_production (α := Unit)
    ⟨true, none, none, none⟩ ⟨"PersonList", false⟩ "GET" (Except.ok ())
    rfl (by decide)).1 (Or.inl rfl)

/-- C5 counterexample: the claim says the translator itself never raises,
and in particular a raising capture operation of the configured
error-tracking integration cannot escape.  The capture call in the code is
not guarded: when it raises, its exception escapes the translator and no
envelope is returned, as evaluated here. -/
theorem C5_counterexample :
    jsonapi_exception_formatter (α := Unit)
      ⟨false, none, none, some (some (Exc.py (PyExc.plain "capture failed")))⟩
      (Except.error (Exc.py (PyExc.plain "boom"))) =
      Except.error (Exc.py (PyExc.plain "capture failed")) := by
  decide

/-- C5 (amended): outside debug/propagate mode, the translator returns a
JSON error envelope for a non-JsonApiException failure whenever the
error-tracking capture operation does not raise (or none is configured);
when the capture operation raises, that failure escapes the translator. -/
theorem C5_translator_raises_only_when_capture_raises {α : Type}
    (cfg : AppConfig) (p : PyExc)
    (h1 : cfg.debug = false) (h2 : cfg.propagate_exceptions ≠ some true) :
    ((∀ x, cfg.sentry ≠ some (some x)) →
      jsonapi_exception_formatter (α := α) cfg (Except.error (Exc.py p)) =
        Except.ok (Sum.inr ⟨jsonapi_errors [(translatedException cfg p).to_dict],
          Status.str (translatedException cfg p).status, jsonapiContentType⟩)) ∧
    (∀ x, cfg.sentry = some (some x) →
      jsonapi_exception_formatter (α := α) cfg (Except.error (Exc.py p)) =
        Except.error x) := by
  constructor
  · intro h3
    rw [formatter_py_cases, if_neg (by simp [h1, h2])]
    cases hsen : cfg.sentry with
    | none => rfl
    | some o =>
      cases o with
      | none => rfl
      | some x => exact absurd hsen (h3 x)
  · intro x hx
    rw [formatter_py_cases, if_neg (by simp [h1, h2]), hx]

/-- Witness for C5 (amended): with no integration configured, a plain
failure is translated into an envelope response; with a raising capture
configured, the capture failure escapes. -/
theorem C5_witness :
    (jsonapi_exception_formatter (α := Unit) ⟨false, none, none, none⟩
      (Except.error (Exc.py (PyExc.plain "boom"))) =
      Except.ok (Sum.inr ⟨jsonapi_errors
        [(translatedException ⟨false, none, none, none⟩ (PyExc.plain "boom")).to_dict],
        Status.str (translatedException ⟨false, none, none, none⟩
          (PyExc.plain "boom")).status, jsonapiContentType⟩)) ∧
    (jsonapi_exception_formatter (α := Unit)
      ⟨false, none, none, some (some (Exc.py (PyExc.plain "down")))⟩
      (Except.error (Exc.py (PyExc.plain "boom"))) =
      Except.error (Exc.py (PyExc.plain "down"))) :=
  ⟨(C5_translator_raises_only_when_capture_raises (α := Unit)
      ⟨false, none, none, none⟩ (PyExc.plain "boom") rfl (by decide)).1
      (fun x hx => Option.noConfusion hx),
    (C5_translator_raises_only_when_capture_raises (α := Unit)
      ⟨false, none, none, some (some (Exc.py (PyExc.plain "down")))⟩
      (PyExc.plain "boom") rfl (by decide)).2
      (Exc.py (PyExc.plain "down")) rfl⟩

/-- C8: for a handler without a `schema` attribute, any method other than
DELETE raises an error whose message is exactly the template
"You must provide a schema class in (class name) to get access to the
default (lower-cased method) method" (`schemaErrorMessage` is that exact
template), while DELETE passes through unchecked. -/
theorem C8_schema_capability_requirement (h : Handler) (m : String)
    (hs : h.hasSchema = false) :
    (m ≠ "DELETE" → check_method_requirements h m =
      Except.error (Exc.py (PyExc.plain (schemaErrorMessage h m)))) ∧
    check_method_requirements h "DELETE" = Except.ok () := by
  constructor
  · intro hm
    unfold check_method_requirements
    rw [if_pos hm, if_pos (by rw [hs]; rfl)]
  · unfold check_method_requirements
    rw [if_neg (by simp)]

/-- Witness for C8: the concrete message for a schema-less handler named
PersonList on GET, and the unchecked DELETE on the same handler. -/
theorem C8_witness :
    check_method_requirements ⟨"PersonList", false⟩ "GET" =
      Except.error (Exc.py (PyExc.plain
        "You must provide a schema class in PersonList to get access to the default get method")) ∧
    check_method_requirements ⟨"PersonList", false⟩ "DELETE" = Except.ok () :=
  ⟨((C8_schema_capability_requirement ⟨"PersonList", false⟩ "GET" rfl).1
      (by decide)).trans (by decide),
    (C8_schema_capability_requirement ⟨"PersonList", false⟩ "GET" rfl).2⟩

/-- C10: every error response produced by the three stages — the 415 and
406 rejections of `check_headers`, and the JsonApiException and
translated-unexpected-failure paths of `jsonapi_exception_formatter` —
carries an errors list of length exactly one. -/
theorem C10_every_error_response_has_exactly_one_error {α : Type}
    (req : Request) (cfg : AppConfig) (d : Except Exc α) :
    (∀ r, check_headers req = Except.ok (CheckOutcome.response r) →
      r.body.errors.length = 1) ∧
    (∀ r, jsonapi_exception_formatter cfg d = Except.ok (Sum.inr r) →
      r.body.errors.length = 1) := by
  constructor
  · intro r hr
    rcases check_headers_response_cases req r hr with h | h <;> rw [h] <;> decide
  · intro r hr
    cases d with
    | ok a => simp [jsonapi_exception_formatter] at hr
    | error e =>
      cases e with
      | jsonApi ej =>
        simp only [jsonapi_exception_formatter] at hr
        simp at hr
        rw [← hr]
        rfl
      | py p =>
        rw [formatter_py_cases] at hr
        split at hr
        · simp at hr
        · cases hsen : cfg.sentry with
          | none =>
            rw [hsen] at hr
            simp at hr
            rw [← hr]
            rfl
          | some o =>
            cases o with
            | none =>
              rw [hsen] at hr
              simp at hr
              rw [← hr]
              rfl
            | some x =>
              rw [hsen] at hr
              simp at hr

/-- Witness for C10: the 415 and 406 rejections each carry exactly one
error object. -/
theorem C10_witness :
    resp415.body.errors.length = 1 ∧ resp406.body.errors.length = 1 :=
  ⟨(C10_every_error_response_has_exactly_one_error (α := Unit)
      ⟨"POST", some (HeaderVal.str "text/html"), none⟩ ⟨false, none, none, none⟩
      (Except.ok ())).1 resp415 (by decide),
    (C10_every_error_response_has_exactly_one_error (α := Unit)
      ⟨"GET", none, some "application/vnd.api+json; charset=utf-8"⟩
      ⟨false, none, none, none⟩ (Except.ok ())).1 resp406 (by decide)⟩

end FlaskRestJsonApi
